import Mathlib

/-!
Shallow embedding of the key-management slice of the trillian repository:
`crypto/keys/generate.go` (key generation from a `keyspb.Specification`),
`crypto/keys/signer_factory.go` (type-keyed dispatch from protobuf key
descriptors to loaders), and the PKCS#11 loader `FromConfig`.  The PEM
loaders and the factory's generation entry point are not part of the slice
and are modelled from the specification, as marked on their definitions.
-/

namespace TrillianKeys

/-- Raw value of the `keyspb.Specification.ECDSA.Curve` protobuf enum
member `DEFAULT_CURVE`.  A protobuf enum field may carry any integer value,
so the model keeps the raw value. -/
def Specification_ECDSA_DEFAULT_CURVE : Int := 0

/-- Raw enum value of `keyspb.Specification.ECDSA.Curve.P256`. -/
def Specification_ECDSA_P256 : Int := 1

/-- Raw enum value of `keyspb.Specification.ECDSA.Curve.P384`. -/
def Specification_ECDSA_P384 : Int := 2

/-- Raw enum value of `keyspb.Specification.ECDSA.Curve.P521`. -/
def Specification_ECDSA_P521 : Int := 3

/-- `keyspb.Specification.ECDSA`: the message holding the requested curve. -/
structure Specification_ECDSA where
  curve : Int
deriving DecidableEq

/-- `keyspb.Specification.RSA`: the message holding the requested bit count
(an `int32` in the proto, kept as an unbounded integer since the Go code
casts it value-preservingly to `int`). -/
structure Specification_RSA where
  bits : Int
deriving DecidableEq

/-- The `params` oneof of `keyspb.Specification`; each arm holds a possibly
nil message pointer. -/
inductive Specification_Params where
  | ecdsaParams (p : Option Specification_ECDSA)
  | rsaParams (p : Option Specification_RSA)
deriving DecidableEq

/-- `keyspb.Specification`; the oneof may be unset. -/
structure Specification where
  params : Option Specification_Params
deriving DecidableEq

/-- `spec.GetParams()`: a nil receiver and an unset oneof both give nil. -/
def getParams (spec : Option Specification) : Option Specification_Params :=
  spec.bind (fun s => s.params)

/-- `params.GetCurve()`: a nil receiver gives the zero enum value. -/
def getCurve (p : Option Specification_ECDSA) : Int :=
  (p.map (fun q => q.curve)).getD 0

/-- `params.GetBits()`: a nil receiver gives 0. -/
def getBits (p : Option Specification_RSA) : Int :=
  (p.map (fun q => q.bits)).getD 0

/-- The elliptic curves produced by `elliptic.P256`, `elliptic.P384` and
`elliptic.P521`. -/
inductive EllipticCurve where
  | P256
  | P384
  | P521
deriving DecidableEq

/-- `ECDSACurveFromParams` (generate.go): returns the curve selected by the
params, or none when the curve value is not one of the supported enum
members. -/
def ECDSACurveFromParams (params : Option Specification_ECDSA) : Option EllipticCurve :=
  let c := getCurve params
  if c = Specification_ECDSA_DEFAULT_CURVE then some EllipticCurve.P256
  else if c = Specification_ECDSA_P256 then some EllipticCurve.P256
  else if c = Specification_ECDSA_P384 then some EllipticCurve.P384
  else if c = Specification_ECDSA_P521 then some EllipticCurve.P521
  else none

/-- `DefaultRsaKeySizeInBits` (generate.go). -/
def DefaultRsaKeySizeInBits : Int := 2048

/-- `MinRsaKeySizeInBits` (generate.go). -/
def MinRsaKeySizeInBits : Int := 2048

/-- A freshly generated private key.  `ecdsa.GenerateKey` and
`rsa.GenerateKey` are Go standard library, external to this repository; they
are modelled by their documented contracts: a fresh key on the requested
curve, and a fresh RSA key whose modulus bit length is exactly the requested
size. -/
inductive GeneratedKey where
  | ecdsa (curve : EllipticCurve)
  | rsa (modulusBits : Int)
deriving DecidableEq

/-- The error results of `NewFromSpec`, one constructor per `fmt.Errorf`
site, carrying the values the Go code formats into the message. -/
inductive KeygenError where
  | unsupportedECDSACurve (curve : Int)
  | minRsaKeySize (minBits gotBits : Int)
  | unsupportedParamsType
deriving DecidableEq

/-- `NewFromSpec` (generate.go): generate a private key from a
specification. -/
def NewFromSpec (spec : Option Specification) : Except KeygenError GeneratedKey :=
  match getParams spec with
  | some (Specification_Params.ecdsaParams p) =>
    match ECDSACurveFromParams p with
    | none => Except.error (KeygenError.unsupportedECDSACurve (getCurve p))
    | some curve => Except.ok (GeneratedKey.ecdsa curve)
  | some (Specification_Params.rsaParams p) =>
    let requested := getBits p
    let bits := if requested = 0 then DefaultRsaKeySizeInBits else requested
    if bits < MinRsaKeySizeInBits then
      Except.error (KeygenError.minRsaKeySize MinRsaKeySizeInBits bits)
    else Except.ok (GeneratedKey.rsa bits)
  | none => Except.error KeygenError.unsupportedParamsType

/-- A specification whose RSA params request the given bit count. -/
def rsaSpec (bits : Int) : Option Specification :=
  some { params := some (Specification_Params.rsaParams (some { bits := bits })) }

/-- A specification whose ECDSA params request the given raw curve value. -/
def ecdsaSpec (curve : Int) : Option Specification :=
  some { params := some (Specification_Params.ecdsaParams (some { curve := curve })) }

/-- Whether an `Except` result is a success. -/
def exceptIsOk {ε α : Type} : Except ε α → Bool
  | Except.ok _ => true
  | Except.error _ => false

/-- Contents of a decoded PEM block after any decryption: a parseable
private key, a parseable public key, or bytes that parse as neither.  Key
material is abstracted to an identifier. -/
inductive BlockMaterial where
  | privateKey (key : Nat)
  | publicKey (key : Nat)
  | garbage
deriving DecidableEq

/-- A PEM block: its material, whether it is encrypted, and if so the
password that decrypts it. -/
structure PEMBlock where
  material : BlockMaterial
  encrypted : Bool
  password : String
deriving DecidableEq

/-- A PEM input as `pem.Decode` sees it: the non-PEM bytes before the first
block, the first decodable block if any, and the bytes left over after it. -/
structure PEMText where
  leading : String
  block : Option PEMBlock
  trailing : String
deriving DecidableEq

/-- Errors of the PEM loaders. -/
inductive PEMError where
  | noPEMBlock
  | trailingData
  | wrongPassword
  | notAPrivateKey
  | notAPublicKey
deriving DecidableEq

/-- Modelled from the spec: `NewFromPrivatePEM`, the private-key PEM loader,
is exercised by `generate_test.go` but its source is not in the slice.  Per
the spec: decode one PEM block, skipping any leading non-PEM bytes; trailing
bytes after a valid block are an error; an encrypted block is decrypted with
the supplied password and a wrong password is an error; the block must hold
a parseable private key. -/
def NewFromPrivatePEM (input : PEMText) (password : String) : Except PEMError Nat :=
  match input.block with
  | none => Except.error PEMError.noPEMBlock
  | some b =>
    if input.trailing ≠ "" then Except.error PEMError.trailingData
    else if b.encrypted = true ∧ password ≠ b.password then Except.error PEMError.wrongPassword
    else
      match b.material with
      | BlockMaterial.privateKey k => Except.ok k
      | _ => Except.error PEMError.notAPrivateKey

/-- Modelled from the spec: `NewFromPublicPEM`, used by the PKCS#11 loader
`FromConfig`, is not in the slice.  The spec lists public-key PEM blocks
among the supported forms, with the same decode rules as the private
loader. -/
def NewFromPublicPEM (input : PEMText) : Except PEMError Nat :=
  match input.block with
  | none => Except.error PEMError.noPEMBlock
  | some b =>
    if input.trailing ≠ "" then Except.error PEMError.trailingData
    else
      match b.material with
      | BlockMaterial.publicKey k => Except.ok k
      | _ => Except.error PEMError.notAPublicKey

/-- `keyspb.PKCS11Config`: token label, PIN, and the public key in PEM
form. -/
structure PKCS11Config where
  tokenLabel : String
  pin : String
  publicKey : PEMText
deriving DecidableEq

/-- A session with the external PKCS#11 module.  `pkcs11key.New` is an
external package; establishing a session is modelled as constructing this
record, so any result that is not a success never contacted the module. -/
structure PKCS11Session where
  modulePath : String
  tokenLabel : String
  pin : String
  pubKey : Nat
deriving DecidableEq

/-- Models `pkcs11key.New`: records the parameters of the session request
made to the external module. -/
def pkcs11keyNew (modulePath tokenLabel pin : String) (pubKey : Nat) : PKCS11Session :=
  { modulePath := modulePath, tokenLabel := tokenLabel, pin := pin, pubKey := pubKey }

/-- Errors of the PKCS#11 loader, one constructor per error site in
`FromConfig`. -/
inductive PKCS11Error where
  | noModulePath
  | badPublicKey (e : PEMError)
deriving DecidableEq

/-- `FromConfig` (pkcs11 loader): reject an empty module path, load the
public key from the config's PEM, then hand the request to the external
module. -/
def FromConfig (modulePath : String) (config : PKCS11Config) : Except PKCS11Error PKCS11Session :=
  if modulePath = "" then Except.error PKCS11Error.noModulePath
  else
    match NewFromPublicPEM config.publicKey with
    | Except.error e => Except.error (PKCS11Error.badPublicKey e)
    | Except.ok pubKey => Except.ok (pkcs11keyNew modulePath config.tokenLabel config.pin pubKey)

/-- A protobuf message for dispatch purposes: its registered full type name
and its field contents.  In Go the runtime type of the value determines the
type name; `fields` stands for everything else in the message. -/
structure ProtoMessage where
  typeName : String
  fields : List (String × String)
deriving DecidableEq

/-- Models `proto.MessageName`: the name is a function of the message's
runtime type alone; field contents play no part. -/
def messageName (m : ProtoMessage) : String :=
  m.typeName

/-- `ProtoHandler` (signer_factory.go): turns a protobuf message into a
signer or an error.  The `context.Context` argument is opaque and passed
through unchanged, so the model omits it; `σ` is the signer type
(`crypto.Signer` is an interface, left abstract). -/
def ProtoHandler (σ : Type) : Type :=
  ProtoMessage → Except String σ

/-- `SignerFactory` (signer_factory.go).  The Go `map[string]ProtoHandler`
is modelled as a function map keyed by message type name. -/
structure SignerFactory (σ : Type) where
  Generate : Option (Option Specification → Except String ProtoMessage)
  handlers : String → Option (ProtoHandler σ)

/-- `NewSignerFactory`: a factory with no handlers and no generator. -/
def NewSignerFactory (σ : Type) : SignerFactory σ :=
  { Generate := none, handlers := fun _ => none }

/-- `AddHandler`: registers `handler` under the type name of `keyProto`,
replacing any previous entry (the Go code only logs a warning when it
replaces). -/
def AddHandler {σ : Type} (f : SignerFactory σ) (keyProto : ProtoMessage)
    (handler : ProtoHandler σ) : SignerFactory σ :=
  { f with handlers := fun t => if t = messageName keyProto then some handler else f.handlers t }

/-- `RemoveHandler`: deletes the entry under the type name of `keyProto`. -/
def RemoveHandler {σ : Type} (f : SignerFactory σ) (keyProto : ProtoMessage) : SignerFactory σ :=
  { f with handlers := fun t => if t = messageName keyProto then none else f.handlers t }

/-- The error message `NewSigner` produces when no handler is registered,
after `fmt.Errorf` formatting with `%q` on the type name. -/
def noProtoHandlerMsg (typeName : String) : String :=
  "no ProtoHandler registered for protobuf \"" ++ typeName ++ "\""

/-- `NewSigner` (signer_factory.go): look up the handler registered for the
message's type name and invoke it; error when none is registered. -/
def NewSigner {σ : Type} (f : SignerFactory σ) (keyProto : ProtoMessage) : Except String σ :=
  match f.handlers (messageName keyProto) with
  | some handler => handler keyProto
  | none => Except.error (noProtoHandlerMsg (messageName keyProto))

/-- The handler `NewSigner` would dispatch to, before it is applied. -/
def selectedHandler {σ : Type} (f : SignerFactory σ) (m : ProtoMessage) :
    Option (ProtoHandler σ) :=
  f.handlers (messageName m)

/-- Modelled from the spec: the factory entry point that services
key-generation requests is not in the slice (only the `Generate` field and
its documentation are); per the spec, when the generator is unset such
requests fail with a "generation not supported" error, and otherwise the
generator is invoked on the specification. -/
def NewKeyProto {σ : Type} (f : SignerFactory σ) (spec : Option Specification) :
    Except String ProtoMessage :=
  match f.Generate with
  | none => Except.error "generation not supported"
  | some g => g spec

/-- A handler for witnesses: resolves every message to the signer `42`. -/
def derHandler : ProtoHandler Nat := fun _ => Except.ok 42

/-- A second handler for witnesses: resolves every message to the signer
`7`. -/
def blobHandler : ProtoHandler Nat := fun _ => Except.ok 7

/-- An empty `keyspb.PrivateKey` descriptor. -/
def privProto : ProtoMessage := { typeName := "keyspb.PrivateKey", fields := [] }

/-- A `keyspb.PrivateKey` descriptor carrying DER bytes: same type as
`privProto`, different field contents. -/
def privProtoWithDer : ProtoMessage :=
  { typeName := "keyspb.PrivateKey", fields := [("der", "abc")] }

/-- An empty `keyspb.PKCS11Config` descriptor. -/
def p11Proto : ProtoMessage := { typeName := "keyspb.PKCS11Config", fields := [] }

/-- A factory with one handler, registered for `keyspb.PrivateKey`. -/
def testFactory : SignerFactory Nat := AddHandler (NewSignerFactory Nat) privProto derHandler

/-- An unencrypted PEM block holding a parseable private key. -/
def validBlock : PEMBlock :=
  { material := BlockMaterial.privateKey 7, encrypted := false, password := "" }

/-- A PKCS#11 config whose public-key PEM is empty (no decodable block). -/
def badP11Config : PKCS11Config :=
  { tokenLabel := "token", pin := "1234",
    publicKey := { leading := "", block := none, trailing := "" } }

/-- A PKCS#11 config whose public-key PEM parses successfully. -/
def goodP11Config : PKCS11Config :=
  { tokenLabel := "token", pin := "1234",
    publicKey :=
      { leading := "",
        block := some { material := BlockMaterial.publicKey 5, encrypted := false, password := "" },
        trailing := "" } }

/-- C1: `NewFromSpec` on an RSA specification: a requested bit count of 0
(also a nil RSA params message) yields the 2048-bit default; any requested
bit count of at least 2048 yields a key whose modulus has exactly that bit
length; any other bit count below 2048, negative values included, yields the
minimum-size error and no key. -/
theorem newFromSpec_rsa_policy (bhi blo : Int)
    (hhi : 2048 ≤ bhi) (hlo : blo < 2048) (hlo0 : blo ≠ 0) :
    NewFromSpec (rsaSpec 0) = Except.ok (GeneratedKey.rsa 2048) ∧
    NewFromSpec (some { params := some (Specification_Params.rsaParams none) }) =
      Except.ok (GeneratedKey.rsa 2048) ∧
    NewFromSpec (rsaSpec bhi) = Except.ok (GeneratedKey.rsa bhi) ∧
    NewFromSpec (rsaSpec blo) = Except.error (KeygenError.minRsaKeySize 2048 blo) := by
  have h1 : bhi ≠ 0 := by omega
  have h2 : ¬ (bhi < 2048) := by omega
  refine ⟨rfl, rfl, ?_, ?_⟩
  · simp [NewFromSpec, rsaSpec, getParams, getBits,
      DefaultRsaKeySizeInBits, MinRsaKeySizeInBits, h1, h2]
  · simp [NewFromSpec, rsaSpec, getParams, getBits,
      DefaultRsaKeySizeInBits, MinRsaKeySizeInBits, hlo0, hlo]

/-- Witness for C1 at bit counts 0, 4096 and -4096. -/
theorem newFromSpec_rsa_policy_witness :
    NewFromSpec (rsaSpec 0) = Except.ok (GeneratedKey.rsa 2048) ∧
    NewFromSpec (some { params := some (Specification_Params.rsaParams none) }) =
      Except.ok (GeneratedKey.rsa 2048) ∧
    NewFromSpec (rsaSpec 4096) = Except.ok (GeneratedKey.rsa 4096) ∧
    NewFromSpec (rsaSpec (-4096)) = Except.error (KeygenError.minRsaKeySize 2048 (-4096)) :=
  newFromSpec_rsa_policy 4096 (-4096) (by decide) (by decide) (by decide)

/-- C2: `NewFromSpec` on an ECDSA specification generates a key on P-256
when the curve field is `DEFAULT_CURVE` or `P256` (also when the ECDSA
params message is nil), on P-384 for `P384`, on P-521 for `P521`, and for
every curve value outside this enumerated set returns the unsupported-curve
error and no key. -/
theorem newFromSpec_ecdsa_curves (c : Int)
    (h0 : c ≠ Specification_ECDSA_DEFAULT_CURVE)
    (h1 : c ≠ Specification_ECDSA_P256)
    (h2 : c ≠ Specification_ECDSA_P384)
    (h3 : c ≠ Specification_ECDSA_P521) :
    NewFromSpec (ecdsaSpec Specification_ECDSA_DEFAULT_CURVE) =
      Except.ok (GeneratedKey.ecdsa EllipticCurve.P256) ∧
    NewFromSpec (some { params := some (Specification_Params.ecdsaParams none) }) =
      Except.ok (GeneratedKey.ecdsa EllipticCurve.P256) ∧
    NewFromSpec (ecdsaSpec Specification_ECDSA_P256) =
      Except.ok (GeneratedKey.ecdsa EllipticCurve.P256) ∧
    NewFromSpec (ecdsaSpec Specification_ECDSA_P384) =
      Except.ok (GeneratedKey.ecdsa EllipticCurve.P384) ∧
    NewFromSpec (ecdsaSpec Specification_ECDSA_P521) =
      Except.ok (GeneratedKey.ecdsa EllipticCurve.P521) ∧
    NewFromSpec (ecdsaSpec c) = Except.error (KeygenError.unsupportedECDSACurve c) := by
  simp only [Specification_ECDSA_DEFAULT_CURVE, Specification_ECDSA_P256,
    Specification_ECDSA_P384, Specification_ECDSA_P521] at h0 h1 h2 h3
  refine ⟨rfl, rfl, rfl, rfl, rfl, ?_⟩
  simp [NewFromSpec, ecdsaSpec, getParams, getCurve, ECDSACurveFromParams,
    Specification_ECDSA_DEFAULT_CURVE, Specification_ECDSA_P256,
    Specification_ECDSA_P384, Specification_ECDSA_P521, h0, h1, h2, h3]

/-- Witness for C2 at the unsupported curve value 99. -/
theorem newFromSpec_ecdsa_curves_witness :
    NewFromSpec (ecdsaSpec Specification_ECDSA_DEFAULT_CURVE) =
      Except.ok (GeneratedKey.ecdsa EllipticCurve.P256) ∧
    NewFromSpec (some { params := some (Specification_Params.ecdsaParams none) }) =
      Except.ok (GeneratedKey.ecdsa EllipticCurve.P256) ∧
    NewFromSpec (ecdsaSpec Specification_ECDSA_P256) =
      Except.ok (GeneratedKey.ecdsa EllipticCurve.P256) ∧
    NewFromSpec (ecdsaSpec Specification_ECDSA_P384) =
      Except.ok (GeneratedKey.ecdsa EllipticCurve.P384) ∧
    NewFromSpec (ecdsaSpec Specification_ECDSA_P521) =
      Except.ok (GeneratedKey.ecdsa EllipticCurve.P521) ∧
    NewFromSpec (ecdsaSpec 99) = Except.error (KeygenError.unsupportedECDSACurve 99) :=
  newFromSpec_ecdsa_curves 99 (by decide) (by decide) (by decide) (by decide)

/-- C3: `NewSigner` returns the no-handler error when no handler is
registered for the message's type, and otherwise returns exactly the result
of invoking the registered handler on the message. -/
theorem newSigner_dispatch {σ : Type} (f : SignerFactory σ)
    (m1 m2 : ProtoMessage) (h : ProtoHandler σ)
    (hnone : selectedHandler f m1 = none)
    (hsome : selectedHandler f m2 = some h) :
    NewSigner f m1 = Except.error (noProtoHandlerMsg (messageName m1)) ∧
    NewSigner f m2 = h m2 := by
  unfold selectedHandler at hnone hsome
  unfold NewSigner
  rw [hnone, hsome]
  exact ⟨rfl, rfl⟩

/-- Witness for C3: a factory with a handler for `keyspb.PrivateKey` only. -/
theorem newSigner_dispatch_witness :
    NewSigner testFactory p11Proto = Except.error (noProtoHandlerMsg (messageName p11Proto)) ∧
    NewSigner testFactory privProtoWithDer = derHandler privProtoWithDer :=
  newSigner_dispatch testFactory p11Proto privProtoWithDer derHandler rfl rfl

/-- C4: a generation request on a factory whose generator is unset fails
with the "generation not supported" error. -/
theorem newKeyProto_no_generator {σ : Type} (f : SignerFactory σ)
    (spec : Option Specification) (hgen : f.Generate = none) :
    NewKeyProto f spec = Except.error "generation not supported" := by
  unfold NewKeyProto
  rw [hgen]

/-- Witness for C4: a freshly constructed factory has no generator. -/
theorem newKeyProto_no_generator_witness :
    NewKeyProto (NewSignerFactory Nat) none = Except.error "generation not supported" :=
  newKeyProto_no_generator (NewSignerFactory Nat) none rfl

/-- C5: `NewFromSpec` on a specification with no params set, and on the nil
specification, returns the unsupported-params-type error and no key. -/
theorem newFromSpec_no_params :
    NewFromSpec (some { params := none }) = Except.error KeygenError.unsupportedParamsType ∧
    NewFromSpec none = Except.error KeygenError.unsupportedParamsType :=
  ⟨rfl, rfl⟩

/-- C6: `AddHandler` replaces any previous handler for the message type, so
subsequent `NewSigner` calls for that type invoke the new handler;
`RemoveHandler` makes subsequent `NewSigner` calls for that type fail with
the no-handler error; messages of other types are unaffected by either
operation. -/
theorem addRemoveHandler_semantics {σ : Type} (f : SignerFactory σ)
    (kp m1 m2 : ProtoMessage) (h : ProtoHandler σ)
    (heq : messageName m1 = messageName kp)
    (hne : messageName m2 ≠ messageName kp) :
    NewSigner (AddHandler f kp h) m1 = h m1 ∧
    NewSigner (RemoveHandler f kp) m1 = Except.error (noProtoHandlerMsg (messageName m1)) ∧
    NewSigner (AddHandler f kp h) m2 = NewSigner f m2 ∧
    NewSigner (RemoveHandler f kp) m2 = NewSigner f m2 := by
  simp [NewSigner, AddHandler, RemoveHandler, heq, hne]

/-- Witness for C6: replacing and removing the `keyspb.PrivateKey` handler
of `testFactory`, with a `keyspb.PKCS11Config` message unaffected. -/
theorem addRemoveHandler_semantics_witness :
    NewSigner (AddHandler testFactory privProto blobHandler) privProtoWithDer =
      blobHandler privProtoWithDer ∧
    NewSigner (RemoveHandler testFactory privProto) privProtoWithDer =
      Except.error (noProtoHandlerMsg (messageName privProtoWithDer)) ∧
    NewSigner (AddHandler testFactory privProto blobHandler) p11Proto =
      NewSigner testFactory p11Proto ∧
    NewSigner (RemoveHandler testFactory privProto) p11Proto =
      NewSigner testFactory p11Proto :=
  addRemoveHandler_semantics testFactory privProto privProtoWithDer p11Proto blobHandler
    rfl (by decide)

/-- C7: the private-key PEM loader fails (with the trailing-data error) on
input with trailing non-PEM bytes after a block that would otherwise load,
and succeeds on input with only leading non-PEM bytes before the block,
which never influence the result. -/
theorem newFromPrivatePEM_junk_handling (b : PEMBlock) (lead1 lead2 junk pw : String)
    (hjunk : junk ≠ "")
    (hok : exceptIsOk (NewFromPrivatePEM { leading := "", block := some b, trailing := "" } pw) = true) :
    NewFromPrivatePEM { leading := lead1, block := some b, trailing := junk } pw =
      Except.error PEMError.trailingData ∧
    NewFromPrivatePEM { leading := lead2, block := some b, trailing := "" } pw =
      NewFromPrivatePEM { leading := "", block := some b, trailing := "" } pw ∧
    exceptIsOk (NewFromPrivatePEM { leading := lead2, block := some b, trailing := "" } pw) = true := by
  refine ⟨?_, rfl, hok⟩
  simp [NewFromPrivatePEM, hjunk]

/-- Witness for C7: an unencrypted valid block with junk before and after. -/
theorem newFromPrivatePEM_junk_handling_witness :
    NewFromPrivatePEM { leading := "foobar\n", block := some validBlock, trailing := "\nfoobar" } "" =
      Except.error PEMError.trailingData ∧
    NewFromPrivatePEM { leading := "foobar\n", block := some validBlock, trailing := "" } "" =
      NewFromPrivatePEM { leading := "", block := some validBlock, trailing := "" } "" ∧
    exceptIsOk (NewFromPrivatePEM { leading := "foobar\n", block := some validBlock, trailing := "" } "") = true :=
  newFromPrivatePEM_junk_handling validBlock "foobar\n" "foobar\n" "\nfoobar" ""
    (by decide) (by decide)

/-- C8: `FromConfig` with an empty module path returns the no-module-path
error and no signer; since a session with the external module exists only
inside a success result, no session establishment is attempted. -/
theorem fromConfig_empty_module_path (config : PKCS11Config) :
    FromConfig "" config = Except.error PKCS11Error.noModulePath :=
  rfl

/-- C9: with a non-empty module path, `FromConfig` on a config whose
public-key PEM does not parse returns the bad-public-key error without
contacting the external module, and on a config whose public key parses it
establishes the session with exactly the parsed key. -/
theorem fromConfig_public_key_gate (modulePath : String)
    (cfgBad cfgGood : PKCS11Config) (e : PEMError) (pub : Nat)
    (hpath : modulePath ≠ "")
    (hbad : NewFromPublicPEM cfgBad.publicKey = Except.error e)
    (hgood : NewFromPublicPEM cfgGood.publicKey = Except.ok pub) :
    FromConfig modulePath cfgBad = Except.error (PKCS11Error.badPublicKey e) ∧
    FromConfig modulePath cfgGood =
      Except.ok (pkcs11keyNew modulePath cfgGood.tokenLabel cfgGood.pin pub) := by
  simp [FromConfig, hpath, hbad, hgood]

/-- Witness for C9: an empty public-key PEM errors, a parseable one reaches
the module. -/
theorem fromConfig_public_key_gate_witness :
    FromConfig "softhsm.so" badP11Config = Except.error (PKCS11Error.badPublicKey PEMError.noPEMBlock) ∧
    FromConfig "softhsm.so" goodP11Config =
      Except.ok (pkcs11keyNew "softhsm.so" goodP11Config.tokenLabel goodP11Config.pin 5) :=
  fromConfig_public_key_gate "softhsm.so" badP11Config goodP11Config PEMError.noPEMBlock 5
    (by decide) rfl rfl

/-- C10: `NewSigner` selects its handler from the message's type name only:
two messages of the same protobuf type select the same handler whatever
their field contents, and when none is registered both fail with the same
no-handler error. -/
theorem newSigner_type_only_dispatch {σ : Type} (f : SignerFactory σ)
    (m1 m2 : ProtoMessage) (heq : m1.typeName = m2.typeName) :
    selectedHandler f m1 = selectedHandler f m2 ∧
    (selectedHandler f m1 = none →
      NewSigner f m1 = Except.error (noProtoHandlerMsg m1.typeName) ∧
      NewSigner f m2 = Except.error (noProtoHandlerMsg m1.typeName)) := by
  constructor
  · unfold selectedHandler messageName
    rw [heq]
  · intro hnone
    unfold selectedHandler messageName at hnone
    have hnone2 : f.handlers m2.typeName = none := heq ▸ hnone
    constructor
    · simp [NewSigner, messageName, hnone]
    · simp [NewSigner, messageName, hnone2, heq]

/-- Witness for C10: two `keyspb.PrivateKey` messages with different field
contents against the empty factory. -/
theorem newSigner_type_only_dispatch_witness :
    selectedHandler (NewSignerFactory Nat) privProtoWithDer =
      selectedHandler (NewSignerFactory Nat) privProto ∧
    (selectedHandler (NewSignerFactory Nat) privProtoWithDer = none →
      NewSigner (NewSignerFactory Nat) privProtoWithDer =
        Except.error (noProtoHandlerMsg privProtoWithDer.typeName) ∧
      NewSigner (NewSignerFactory Nat) privProto =
        Except.error (noProtoHandlerMsg privProtoWithDer.typeName)) :=
  newSigner_type_only_dispatch (NewSignerFactory Nat) privProtoWithDer privProto rfl

end TrillianKeys
